import Mathlib

/-!
Shallow embedding of the app-info retriever (src/main.py): the parameter
builder (setup_params), the pagination driver inside AppInfoRetriever.run,
the result aggregator and persistence dispatch (save_results), the API-key
resolution in AppInfoRetriever.__init__, and the run orchestrator that
iterates queries × engines × countries × languages.

Modelling conventions:
- Python dicts with a statically known key set (the params dict built by
  setup_params) become a structure; the next_page_token key, absent until the
  Google Play branch adds it, is an Option field (none = key absent).
- The HTTP transport is a black box: it is passed in as a function from the
  request index (0-based order of issue) to the decoded JSON response.
- Dynamic JSON records are the inductive Item: a Google Play organic result
  is a wrapper holding a list under the key "items" (constructor wrap); any
  other record is opaque (constructor leaf, tagged for distinguishability).
- Python exceptions become Except / explicit crash flags: a KeyError while
  advancing the cursor (google_play response with "next" but no
  "next_page_token") sets crashed := true in the fetch loop; save_results
  returns Except SaveError, and an error means no file was written.
- datetime.now() timestamps are modelled as a counter that increases by one
  per saved artifact, so every artifact gets a distinct name, matching the
  observed behaviour that each tuple produces its own file.
- Python str.lower().endswith(x) is modelled character-wise (lowerStr,
  strEndsWith) so that it evaluates inside the kernel.
-/

namespace AppInfoRetriever

/-- Engines supported by the retriever (allowed_engines in main.py). -/
inductive Engine where
  | apple_app_store
  | google_play
deriving DecidableEq, Repr

/-- A dynamic result record as it appears in decoded JSON responses. A
Google Play organic result is a wrapper carrying a list of records under the
key "items" (constructor wrap); every other record shape is opaque
(constructor leaf). -/
inductive Item where
  | leaf (tag : String)
  | wrap (items : List Item)

/-- Reading x["items"] from a record: succeeds exactly when the record is a
wrapper; none models a Python KeyError. -/
def getItems : Item → Option (List Item)
  | .wrap xs => some xs
  | .leaf _ => none

/-- The params dict produced by AppInfoRetriever.setup_params. The
next_page_token field is none until the Google Play pagination branch first
assigns it (a key absent from the dict). -/
structure Params where
  api_key : String
  engine : Engine
  device : String
  country : String
  lang : String
  disallow_explicit : Bool
  num : Int
  page : Int
  term : String
  q : String
  gl : String
  hl : String
  next_page_token : Option String
deriving DecidableEq, Repr

/-- AppInfoRetriever.setup_params: builds the params dict sent to the search
API. Mirrors main.py lines 42-57, including the doubled locale string for
the lang field and page initialised to the start page. -/
def setup_params (serpapi_key : String) (query : String) (engine : Engine)
    (device : String) (country : String) (language : String)
    (disallow_explicit : Bool) (num : Int) (start_page : Int) : Params :=
  { api_key := serpapi_key
    engine := engine
    device := device
    country := country
    lang := language ++ "-" ++ language
    disallow_explicit := disallow_explicit
    num := num
    page := start_page
    term := query
    q := query
    gl := country
    hl := language
    next_page_token := none }

/-- Python str.lower, character by character. -/
def lowerStr (s : String) : String := String.mk (s.data.map Char.toLower)

/-- Python str.endswith, on the character lists. -/
def strEndsWith (s suffix : String) : Bool := suffix.data.isSuffixOf s.data

/-- Errors save_results can raise: KeyError from x["items"] on an ill-shaped
Google Play record, or the ValueError for an unknown output format. -/
inductive SaveError where
  | keyError
  | unknownFormat
deriving DecidableEq, Repr

/-- The one file save_results writes on success: a CSV dump (df.to_csv) or a
JSON dump (df.T.to_json) of the record rows. -/
inductive SavedDoc where
  | csv (rows : List Item)
  | json (rows : List Item)

/-- The list comprehension results = [x["items"] for x in results] of
main.py line 69: items lists extracted left to right, the first record
without an "items" wrapper raising KeyError. -/
def extractItems : List Item → Except SaveError (List (List Item))
  | [] => Except.ok []
  | x :: xs =>
    match getItems x with
    | none => Except.error SaveError.keyError
    | some ys =>
      match extractItems xs with
      | Except.error err => Except.error err
      | Except.ok rest => Except.ok (ys :: rest)

/-- The Google Play flattening step of save_results (main.py lines 68-73):
extract each record's items list, then extend them one after the other into
one flat list. -/
def flattenGoogle (results : List Item) : Except SaveError (List Item) :=
  match extractItems results with
  | Except.error err => Except.error err
  | Except.ok pages => Except.ok (pages.foldl (fun acc page => acc ++ page) [])

/-- AppInfoRetriever.save_results (main.py lines 59-81): flatten Google Play
results, then dispatch on output_fp.lower().endswith; an unrecognised ending
raises ValueError (unknownFormat) and nothing is written (an error carries
no SavedDoc). -/
def save_results (results : List Item) (output_fp : String) (engine : Engine) :
    Except SaveError SavedDoc :=
  match (if engine = Engine.google_play then flattenGoogle results
         else Except.ok results) with
  | Except.error err => Except.error err
  | Except.ok rows =>
    if strEndsWith (lowerStr output_fp) "csv" then
      Except.ok (SavedDoc.csv rows)
    else if strEndsWith (lowerStr output_fp) "json" then
      Except.ok (SavedDoc.json rows)
    else
      Except.error SaveError.unknownFormat

/-- The serpapi_pagination object of a response: whether the "next" key is
present, and the value of "next_page_token" if that key is present. -/
structure Pagination where
  next : Bool
  next_page_token : Option String
deriving DecidableEq, Repr

/-- One decoded search response: the organic_results list and the optional
serpapi_pagination object. -/
structure SearchResponse where
  organic_results : List Item
  serpapi_pagination : Option Pagination

/-- The loop guard "next" in response.get("serpapi_pagination", {}). -/
def hasNext (r : SearchResponse) : Bool :=
  match r.serpapi_pagination with
  | some pg => pg.next
  | none => false

/-- Reading response["serpapi_pagination"]["next_page_token"]; none models a
KeyError. -/
def getToken (r : SearchResponse) : Option String :=
  r.serpapi_pagination.bind (fun pg => pg.next_page_token)

/-- Cursor advance of main.py lines 126-129, run only when "next" is present:
google_play copies the continuation token into the params (none = the
KeyError crash when the token key is missing), apple_app_store increments the
page field. -/
def nextParams (e : Engine) (p : Params) (r : SearchResponse) : Option Params :=
  match e with
  | Engine.google_play =>
    match getToken r with
    | some t => some { p with next_page_token := some t }
    | none => none
  | Engine.apple_app_store => some { p with page := p.page + 1 }

/-- Whether the cursor advance at a response succeeds without a KeyError. -/
def advanceOk (e : Engine) (r : SearchResponse) : Bool :=
  match e with
  | Engine.apple_app_store => true
  | Engine.google_play => (getToken r).isSome

/-- Outcome of the pagination while-loop for one tuple: the accumulated
organic results in fetch order, the params used for each issued request in
order of issue, and whether the loop died with a KeyError. -/
structure FetchResult where
  results : List Item
  trace : List Params
  crashed : Bool

/-- The while-loop of AppInfoRetriever.run (main.py lines 119-131), with the
remaining iteration budget (max_pages - page_idx) as fuel and idx the 0-based
index of the next request. Each iteration issues one request, extends the
results with that page's organic_results, then either advances the cursor,
breaks when "next" is absent, or crashes on a Google Play KeyError. -/
def fetchAux (e : Engine) (api : Nat → SearchResponse) :
    Nat → Nat → Params → FetchResult
  | _, 0, _ => { results := [], trace := [], crashed := false }
  | idx, fuel + 1, p =>
    let resp := api idx
    if hasNext resp then
      match nextParams e p resp with
      | none =>
        { results := resp.organic_results, trace := [p], crashed := true }
      | some p2 =>
        let r := fetchAux e api (idx + 1) fuel p2
        { results := resp.organic_results ++ r.results
          trace := p :: r.trace
          crashed := r.crashed }
    else
      { results := resp.organic_results, trace := [p], crashed := false }

/-- The full pagination loop for one tuple: while page_idx < max_pages,
starting from the params built by setup_params. -/
def fetchAll (e : Engine) (api : Nat → SearchResponse) (maxPages : Nat)
    (p : Params) : FetchResult :=
  fetchAux e api 0 maxPages p

/-- Missing API key: the KeyError from os.environ["SERP_API_KEY"] when no
key argument is given, the startup failure the spec calls ConfigError. -/
inductive ConfigError where
  | missingApiKey
deriving DecidableEq, Repr

/-- AppInfoRetriever.__init__ key resolution (main.py line 20):
serpapi_key or os.environ["SERP_API_KEY"]. The argument is an Option (None
or a string; the empty string is falsy, as in Python), the environment
variable is an Option (none = unset). Construction performs no search
request: no transport function is in scope here. -/
def initRetriever (serpapi_key : Option String) (envKey : Option String) :
    Except ConfigError String :=
  match serpapi_key with
  | some s =>
    if s = "" then
      match envKey with
      | some v => Except.ok v
      | none => Except.error ConfigError.missingApiKey
    else Except.ok s
  | none =>
    match envKey with
    | some v => Except.ok v
    | none => Except.error ConfigError.missingApiKey

/-- Whether construction succeeded. -/
def initOk (r : Except ConfigError String) : Bool :=
  match r with
  | Except.ok _ => true
  | Except.error _ => false

/-- The engine string used in the output file name. -/
def engineString : Engine → String
  | Engine.apple_app_store => "apple_app_store"
  | Engine.google_play => "google_play"

/-- The output path of main.py line 135:
data/{engine}.{query}.{timestamp}.{format}, with the timestamp counter
standing in for datetime.now(). -/
def outputName (e : Engine) (q : String) (stamp : Nat) (fmt : String) : String :=
  "data/" ++ engineString e ++ "." ++ q ++ "." ++ toString stamp ++ "." ++ fmt

/-- One persisted output artifact: which engine and query named its file,
the timestamp in its name, and the document written. -/
structure Artifact where
  engine : Engine
  query : String
  stamp : Nat
  doc : SavedDoc

/-- One (query, engine, country, language) tuple of the nested loops. -/
def Tuple := String × Engine × String × String

/-- The retrieval of one tuple: build params via setup_params (num and
start_page as run passes them) and drive the pagination loop. The transport
is indexed by the whole tuple because each tuple issues its own requests. -/
def tupleFetch (key device : String) (disallow : Bool) (sp : Int) (mp : Nat)
    (api : String → Engine → String → String → Nat → SearchResponse)
    (t : Tuple) : FetchResult :=
  fetchAll t.2.1 (api t.1 t.2.1 t.2.2.1 t.2.2.2) mp
    (setup_params key t.1 t.2.1 device t.2.2.1 t.2.2.2 disallow 20 sp)

/-- The body of AppInfoRetriever.run over the flattened list of tuples, with
the running timestamp counter. Each tuple is fetched and saved in order; an
uncaught exception (fetch crash or save error) aborts the whole run, keeping
the artifacts already written. Returns (artifacts written, aborted?). -/
def runLoop (key fmt device : String) (disallow : Bool) (sp : Int) (mp : Nat)
    (api : String → Engine → String → String → Nat → SearchResponse) :
    List Tuple → Nat → List Artifact × Bool
  | [], _ => ([], false)
  | t :: rest, stamp =>
    let fr := tupleFetch key device disallow sp mp api t
    if fr.crashed then ([], true)
    else
      match save_results fr.results (outputName t.2.1 t.1 stamp fmt) t.2.1 with
      | Except.error _ => ([], true)
      | Except.ok doc =>
        let r := runLoop key fmt device disallow sp mp api rest (stamp + 1)
        ({ engine := t.2.1, query := t.1, stamp := stamp, doc := doc } :: r.1,
         r.2)

/-- The cross product iterated by AppInfoRetriever.run, in loop order:
queries outermost, then engines, countries, languages innermost. -/
def tuples (queries : List String) (engines : List Engine)
    (countries languages : List String) : List Tuple :=
  queries.flatMap (fun q =>
    engines.flatMap (fun e =>
      countries.flatMap (fun c =>
        languages.map (fun l => (q, e, c, l)))))

/-- AppInfoRetriever.run (main.py lines 83-137): iterate the cross product
and fetch and save each tuple. -/
def run (key fmt : String)
    (api : String → Engine → String → String → Nat → SearchResponse)
    (queries : List String) (engines : List Engine)
    (countries languages : List String) (disallow : Bool) (sp : Int)
    (mp : Nat) (device : String) : List Artifact × Bool :=
  runLoop key fmt device disallow sp mp api
    (tuples queries engines countries languages) 0

theorem fetchAux_trace_length_le (e : Engine) (api : Nat → SearchResponse) :
    ∀ (fuel idx : Nat) (p : Params),
    (fetchAux e api idx fuel p).trace.length ≤ fuel := by
  intro fuel
  induction fuel with
  | zero =>
    intro idx p
    simp [fetchAux]
  | succ n ih =>
    intro idx p
    simp only [fetchAux]
    by_cases h : hasNext (api idx) = true
    · rw [if_pos h]
      cases hnp : nextParams e p (api idx) with
      | none => simp
      | some p2 =>
        simpa using Nat.succ_le_succ (ih (idx + 1) p2)
    · rw [if_neg h]
      simp

theorem fetchAux_results_eq (e : Engine) (api : Nat → SearchResponse) :
    ∀ (fuel idx : Nat) (p : Params),
    (fetchAux e api idx fuel p).results
      = ((List.range (fetchAux e api idx fuel p).trace.length).map
          (fun i => (api (idx + i)).organic_results)).flatten := by
  intro fuel
  induction fuel with
  | zero =>
    intro idx p
    simp [fetchAux]
  | succ n ih =>
    intro idx p
    simp only [fetchAux]
    by_cases h : hasNext (api idx) = true
    · rw [if_pos h]
      cases hnp : nextParams e p (api idx) with
      | none => simp [List.range_succ_eq_map]
      | some p2 =>
        simp only [List.length_cons, List.range_succ_eq_map, List.map_cons,
          List.map_map, List.flatten_cons, Nat.add_zero]
        have := ih (idx + 1) p2
        rw [this]
        apply congrArg (fun ys => (api idx).organic_results ++ ys)
        apply congrArg List.flatten
        apply List.map_congr_left
        intro i _
        simp only [Function.comp]
        have harg : idx + 1 + i = idx + (i + 1) := by omega
        rw [harg]
    · rw [if_neg h]
      simp [List.range_succ_eq_map]

/-- C2: the pagination loop issues at most maxPages requests (the trace
records the params of each issued request, one entry per request), and the
accumulated results are the in-order concatenation of the organic_results of
the fetched pages, in the order the pages were fetched. -/
theorem fetchAll_bounded_and_ordered (e : Engine) (api : Nat → SearchResponse)
    (maxPages : Nat) (p : Params) :
    (fetchAll e api maxPages p).trace.length ≤ maxPages ∧
    (fetchAll e api maxPages p).results
      = ((List.range (fetchAll e api maxPages p).trace.length).map
          (fun i => (api i).organic_results)).flatten := by
  constructor
  · exact fetchAux_trace_length_le e api maxPages 0 p
  · simpa using fetchAux_results_eq e api maxPages 0 p

theorem nextParams_isSome_of_advanceOk (e : Engine) (p : Params)
    (r : SearchResponse) (h : advanceOk e r = true) :
    (nextParams e p r).isSome = true := by
  cases e with
  | apple_app_store => simp [nextParams]
  | google_play =>
    simp only [advanceOk] at h
    simp only [nextParams]
    cases ht : getToken r with
    | none => rw [ht] at h; simp at h
    | some t => simp

theorem fetchAux_stops (e : Engine) (api : Nat → SearchResponse) :
    ∀ (k fuel idx : Nat) (p : Params), k < fuel →
    (∀ i, i < k → hasNext (api (idx + i)) = true ∧
      advanceOk e (api (idx + i)) = true) →
    hasNext (api (idx + k)) = false →
    (fetchAux e api idx fuel p).trace.length = k + 1 ∧
    (fetchAux e api idx fuel p).crashed = false := by
  intro k
  induction k with
  | zero =>
    intro fuel idx p hk hprev hstop
    cases fuel with
    | zero => omega
    | succ n =>
      simp only [Nat.add_zero] at hstop
      simp [fetchAux, hstop]
  | succ k ih =>
    intro fuel idx p hk hprev hstop
    cases fuel with
    | zero => omega
    | succ n =>
      have h0 : hasNext (api (idx + 0)) = true ∧
          advanceOk e (api (idx + 0)) = true := hprev 0 (Nat.succ_pos k)
      simp only [Nat.add_zero] at h0
      have hsome := nextParams_isSome_of_advanceOk e p (api idx) h0.2
      cases hnp : nextParams e p (api idx) with
      | none => rw [hnp] at hsome; simp at hsome
      | some p2 =>
        have hrec := ih n (idx + 1) p2 (by omega)
          (fun i hi => by
            have := hprev (i + 1) (by omega)
            simpa [Nat.add_assoc, Nat.add_comm 1 i] using this)
          (by
            have : idx + 1 + k = idx + (k + 1) := by omega
            rw [this]
            exact hstop)
        simp only [fetchAux, h0.1, if_pos, hnp]
        simp [hrec.1, hrec.2]

/-- C3: if the response to request number k (0-based) lacks the "next"
continuation indicator while every earlier response had it (and its cursor
advance succeeded), the loop stops right after that page: exactly k + 1
requests are issued, without crash — in particular exactly one request when
the very first response lacks the indicator. -/
theorem fetchAll_stops_on_missing_next (e : Engine)
    (api : Nat → SearchResponse) (maxPages k : Nat) (p : Params)
    (hk : k < maxPages)
    (hprev : ∀ i, i < k → hasNext (api i) = true ∧ advanceOk e (api i) = true)
    (hstop : hasNext (api k) = false) :
    (fetchAll e api maxPages p).trace.length = k + 1 ∧
    (fetchAll e api maxPages p).crashed = false := by
  have := fetchAux_stops e api k maxPages 0 p hk
    (fun i hi => by simpa using hprev i hi)
    (by simpa using hstop)
  simpa [fetchAll] using this

/-- Witness for C3 at a concrete input: the very first response has no
pagination object at all, so exactly one request is issued and the loop ends
cleanly even though maxPages is 5. -/
theorem fetchAll_stops_on_missing_next_witness :
    (fetchAll Engine.apple_app_store
        (fun _ => SearchResponse.mk [Item.leaf "A"] none) 5
        (setup_params "k" "q" Engine.apple_app_store "mobile" "de" "de"
          false 20 0)).trace.length = 0 + 1 ∧
    (fetchAll Engine.apple_app_store
        (fun _ => SearchResponse.mk [Item.leaf "A"] none) 5
        (setup_params "k" "q" Engine.apple_app_store "mobile" "de" "de"
          false 20 0)).crashed = false :=
  fetchAll_stops_on_missing_next Engine.apple_app_store
    (fun _ => SearchResponse.mk [Item.leaf "A"] none) 5 0
    (setup_params "k" "q" Engine.apple_app_store "mobile" "de" "de" false 20 0)
    (by decide) (fun i hi => absurd hi (Nat.not_lt_zero i)) (by decide)

theorem fetchAux_succ (e : Engine) (api : Nat → SearchResponse)
    (idx fuel : Nat) (p : Params) :
    fetchAux e api idx (fuel + 1) p =
      if hasNext (api idx) = true then
        match nextParams e p (api idx) with
        | none =>
          { results := (api idx).organic_results, trace := [p],
            crashed := true }
        | some p2 =>
          { results := (api idx).organic_results
              ++ (fetchAux e api (idx + 1) fuel p2).results
            trace := p :: (fetchAux e api (idx + 1) fuel p2).trace
            crashed := (fetchAux e api (idx + 1) fuel p2).crashed }
      else
        { results := (api idx).organic_results, trace := [p],
          crashed := false } := rfl

theorem fetchAux_trace_cons (e : Engine) (api : Nat → SearchResponse)
    (fuel idx : Nat) (p : Params) :
    ∃ rest, (fetchAux e api idx (fuel + 1) p).trace = p :: rest := by
  simp only [fetchAux]
  by_cases h : hasNext (api idx) = true
  · rw [if_pos h]
    cases hnp : nextParams e p (api idx) with
    | none => exact ⟨[], rfl⟩
    | some p2 => exact ⟨_, rfl⟩
  · rw [if_neg h]
    exact ⟨[], rfl⟩

/-- C5: for apple_app_store, when the response to a request carries the
"next" indicator, the params of the following request are the same params
with the page field incremented by exactly 1; in particular a current page
of 1 makes the second fetched request use page 2. The take of the trace pins
both the first and the second issued request's params. -/
theorem apple_next_increments_page (api : Nat → SearchResponse)
    (idx fuel : Nat) (p : Params) (h : hasNext (api idx) = true) :
    (fetchAux Engine.apple_app_store api idx (fuel + 2) p).trace.take 2
      = [p, { p with page := p.page + 1 }] ∧
    (p.page = 1 →
      ((fetchAux Engine.apple_app_store api idx (fuel + 2) p).trace.map
          (fun q => q.page)).take 2 = [1, 2]) := by
  have hmain : (fetchAux Engine.apple_app_store api idx (fuel + 2) p).trace.take 2
      = [p, { p with page := p.page + 1 }] := by
    show (fetchAux Engine.apple_app_store api idx ((fuel + 1) + 1) p).trace.take 2 = _
    rw [fetchAux_succ, if_pos h]
    simp only [nextParams]
    obtain ⟨rest, hrest⟩ := fetchAux_trace_cons Engine.apple_app_store api fuel
      (idx + 1) { p with page := p.page + 1 }
    simp [hrest]
  refine ⟨hmain, fun hp => ?_⟩
  rw [← List.map_take, hmain]
  simp [hp]

/-- Witness for C5: a concrete response with a "next" key and start page 1
makes the second request use page 2. -/
theorem apple_next_increments_page_witness :
    (fetchAux Engine.apple_app_store
        (fun _ => SearchResponse.mk [] (some (Pagination.mk true none))) 0
        (0 + 2)
        (setup_params "k" "q" Engine.apple_app_store "mobile" "de" "de"
          false 20 1)).trace.take 2
      = [setup_params "k" "q" Engine.apple_app_store "mobile" "de" "de"
           false 20 1,
         { setup_params "k" "q" Engine.apple_app_store "mobile" "de" "de"
             false 20 1 with
           page := (setup_params "k" "q" Engine.apple_app_store "mobile" "de"
             "de" false 20 1).page + 1 }] ∧
    ((setup_params "k" "q" Engine.apple_app_store "mobile" "de" "de"
        false 20 1).page = 1 →
      ((fetchAux Engine.apple_app_store
          (fun _ => SearchResponse.mk [] (some (Pagination.mk true none))) 0
          (0 + 2)
          (setup_params "k" "q" Engine.apple_app_store "mobile" "de" "de"
            false 20 1)).trace.map (fun q => q.page)).take 2 = [1, 2]) :=
  apple_next_increments_page
    (fun _ => SearchResponse.mk [] (some (Pagination.mk true none))) 0 0
    (setup_params "k" "q" Engine.apple_app_store "mobile" "de" "de" false 20 1)
    rfl

/-- C6: for google_play, when the response to a request carries the "next"
indicator and supplies a continuation token, the params of the following
request are the same params with the next_page_token field set to exactly
that token. -/
theorem google_next_copies_token (api : Nat → SearchResponse)
    (idx fuel : Nat) (p : Params) (t : String)
    (h : hasNext (api idx) = true) (ht : getToken (api idx) = some t) :
    (fetchAux Engine.google_play api idx (fuel + 2) p).trace.take 2
      = [p, { p with next_page_token := some t }] := by
  show (fetchAux Engine.google_play api idx ((fuel + 1) + 1) p).trace.take 2 = _
  rw [fetchAux_succ, if_pos h]
  simp only [nextParams, ht]
  obtain ⟨rest, hrest⟩ := fetchAux_trace_cons Engine.google_play api fuel
    (idx + 1) { p with next_page_token := some t }
  simp [hrest]

/-- Witness for C6: a concrete first response with "next" present and token
T1 makes the second request carry next_page_token = T1. -/
theorem google_next_copies_token_witness :
    (fetchAux Engine.google_play
        (fun _ => SearchResponse.mk [] (some (Pagination.mk true (some "T1"))))
        0 (0 + 2)
        (setup_params "k" "q" Engine.google_play "mobile" "de" "de"
          false 20 0)).trace.take 2
      = [setup_params "k" "q" Engine.google_play "mobile" "de" "de" false 20 0,
         { setup_params "k" "q" Engine.google_play "mobile" "de" "de"
             false 20 0 with
           next_page_token := some "T1" }] :=
  google_next_copies_token
    (fun _ => SearchResponse.mk [] (some (Pagination.mk true (some "T1"))))
    0 0
    (setup_params "k" "q" Engine.google_play "mobile" "de" "de" false 20 0)
    "T1" rfl rfl

theorem fetchAux_google_page_const (api : Nat → SearchResponse) :
    ∀ (fuel idx : Nat) (p q : Params),
    q ∈ (fetchAux Engine.google_play api idx fuel p).trace →
    q.page = p.page := by
  intro fuel
  induction fuel with
  | zero =>
    intro idx p q hq
    simp [fetchAux] at hq
  | succ n ih =>
    intro idx p q hq
    simp only [fetchAux] at hq
    by_cases h : hasNext (api idx) = true
    · rw [if_pos h] at hq
      cases ht : getToken (api idx) with
      | none =>
        simp only [nextParams, ht] at hq
        simp at hq
        rw [hq]
      | some t =>
        simp only [nextParams, ht] at hq
        simp only [List.mem_cons] at hq
        rcases hq with rfl | hq'
        · rfl
        · exact ih (idx + 1) { p with next_page_token := some t } q hq'
    · rw [if_neg h] at hq
      simp at hq
      rw [hq]

theorem fetchAux_apple_token_const (api : Nat → SearchResponse) :
    ∀ (fuel idx : Nat) (p q : Params),
    q ∈ (fetchAux Engine.apple_app_store api idx fuel p).trace →
    q.next_page_token = p.next_page_token := by
  intro fuel
  induction fuel with
  | zero =>
    intro idx p q hq
    simp [fetchAux] at hq
  | succ n ih =>
    intro idx p q hq
    simp only [fetchAux] at hq
    by_cases h : hasNext (api idx) = true
    · rw [if_pos h] at hq
      simp only [nextParams] at hq
      simp only [List.mem_cons] at hq
      rcases hq with rfl | hq'
      · rfl
      · exact ih (idx + 1) { p with page := p.page + 1 } q hq'
    · rw [if_neg h] at hq
      simp at hq
      rw [hq]

/-- C10: each engine advances only its own cursor field. For google_play the
page field of every issued request equals the start page; for
apple_app_store, if the params start without a next_page_token key, no
issued request ever carries one. -/
theorem engine_cursor_frame (api : Nat → SearchResponse) (fuel idx : Nat)
    (p : Params) :
    (∀ q, q ∈ (fetchAux Engine.google_play api idx fuel p).trace →
      q.page = p.page) ∧
    (p.next_page_token = none →
      ∀ q, q ∈ (fetchAux Engine.apple_app_store api idx fuel p).trace →
        q.next_page_token = none) :=
  ⟨fun q hq => fetchAux_google_page_const api fuel idx p q hq,
   fun hp q hq => (fetchAux_apple_token_const api fuel idx p q hq).trans hp⟩

/-- Witness for C10, at a transport whose every response has a "next" key
and token T: the second google_play request still uses the start page 7, and
the second apple_app_store request still has no next_page_token. -/
theorem engine_cursor_frame_witness :
    ({ setup_params "k" "q" Engine.google_play "mobile" "de" "de" false 20 7
         with next_page_token := some "T" } : Params).page
      = (setup_params "k" "q" Engine.google_play "mobile" "de" "de"
          false 20 7).page ∧
    ({ setup_params "k" "q" Engine.google_play "mobile" "de" "de" false 20 7
         with page := (setup_params "k" "q" Engine.google_play "mobile" "de"
             "de" false 20 7).page + 1 } : Params).next_page_token = none :=
  ⟨(engine_cursor_frame
      (fun _ => SearchResponse.mk [] (some (Pagination.mk true (some "T")))) 2 0
      (setup_params "k" "q" Engine.google_play "mobile" "de" "de"
        false 20 7)).1
    { setup_params "k" "q" Engine.google_play "mobile" "de" "de" false 20 7
        with next_page_token := some "T" } (by decide),
   (engine_cursor_frame
      (fun _ => SearchResponse.mk [] (some (Pagination.mk true (some "T")))) 2 0
      (setup_params "k" "q" Engine.google_play "mobile" "de" "de"
        false 20 7)).2 rfl
    { setup_params "k" "q" Engine.google_play "mobile" "de" "de" false 20 7
        with page := (setup_params "k" "q" Engine.google_play "mobile" "de"
            "de" false 20 7).page + 1 } (by decide)⟩

theorem foldl_append_eq (l : List (List Item)) :
    ∀ acc, l.foldl (fun acc page => acc ++ page) acc = acc ++ l.flatten := by
  induction l with
  | nil => intro acc; simp
  | cons x xs ih => intro acc; simp [ih, List.append_assoc]

theorem extractItems_wrap_eq (itemss : List (List Item)) :
    extractItems (itemss.map Item.wrap) = Except.ok itemss := by
  induction itemss with
  | nil => rfl
  | cons x xs ih => simp [extractItems, getItems, ih]

theorem flattenGoogle_wrap_eq (itemss : List (List Item)) :
    flattenGoogle (itemss.map Item.wrap) = Except.ok itemss.flatten := by
  simp [flattenGoogle, extractItems_wrap_eq, foldl_append_eq]

/-- C4: the Google Play flattening of save_results preserves order. For any
sequence of wrapped pages, the output is exactly the in-order concatenation
of the pages' items lists, with the wrappers discarded: no deduplication, no
sorting; pages with items [A, B] and [C, D] yield [A, B, C, D]. -/
theorem flattenGoogle_preserves_order (itemss : List (List Item)) :
    flattenGoogle (itemss.map Item.wrap) = Except.ok itemss.flatten :=
  flattenGoogle_wrap_eq itemss

/-- C7: key resolution of __init__. With no argument key (None or the falsy
empty string) and no environment key, construction fails with the missing
API key error before anything else can run; a non-empty argument key or a
present environment variable makes construction succeed. -/
theorem init_key_resolution (arg env : Option String) :
    ((arg = none ∨ arg = some "") → env = none →
      initRetriever arg env = Except.error ConfigError.missingApiKey) ∧
    (∀ s, arg = some s → s ≠ "" → initRetriever arg env = Except.ok s) ∧
    (∀ v, env = some v → initOk (initRetriever arg env) = true) := by
  refine ⟨?_, ?_, ?_⟩
  · rintro (rfl | rfl) rfl <;> simp [initRetriever]
  · rintro s rfl hs
    simp [initRetriever, hs]
  · rintro v rfl
    cases arg with
    | none => simp [initRetriever, initOk]
    | some s =>
      by_cases hs : s = "" <;> simp [initRetriever, initOk, hs]

/-- Witness for C7 at concrete keys: no key anywhere gives the startup
error, an argument key "k" is used, and an environment key alone succeeds. -/
theorem init_key_resolution_witness :
    initRetriever none none = Except.error ConfigError.missingApiKey ∧
    initRetriever (some "k") none = Except.ok "k" ∧
    initOk (initRetriever none (some "envk")) = true :=
  ⟨(init_key_resolution none none).1 (Or.inl rfl) rfl,
   (init_key_resolution (some "k") none).2.1 "k" rfl (by decide),
   (init_key_resolution none (some "envk")).2.2 "envk" rfl⟩

/-- Counterexample to C8 as stated: the path out.xjson has extension xjson,
which matches neither supported serialization format, yet save_results does
not raise — it happily writes a JSON document, because the code tests
endswith("json") on the lowercased path rather than the extension. -/
theorem save_results_endswith_cx :
    save_results [] "out.xjson" Engine.apple_app_store
      = Except.ok (SavedDoc.json []) := rfl

/-- C8 amended: for every result list (for google_play, any list of wrapped
records) and every output path whose lowercased form ends with neither
"csv" nor "json", save_results raises the unknown-format error and writes
nothing: the error result carries no document at all. -/
theorem save_results_unknown_ending (results : List Item)
    (itemss : List (List Item)) (fp : String)
    (h1 : strEndsWith (lowerStr fp) "csv" = false)
    (h2 : strEndsWith (lowerStr fp) "json" = false) :
    save_results results fp Engine.apple_app_store
      = Except.error SaveError.unknownFormat ∧
    save_results (itemss.map Item.wrap) fp Engine.google_play
      = Except.error SaveError.unknownFormat := by
  constructor
  · simp [save_results, h1, h2]
  · simp [save_results, h1, h2, flattenGoogle_wrap_eq]

/-- Witness for C8 amended: the path out.txt ends in neither format, and
save_results rejects it for both engines without producing a document. -/
theorem save_results_unknown_ending_witness :
    strEndsWith (lowerStr "out.txt") "csv" = false ∧
    strEndsWith (lowerStr "out.txt") "json" = false ∧
    (save_results [Item.leaf "A"] "out.txt" Engine.apple_app_store
        = Except.error SaveError.unknownFormat ∧
     save_results ([[Item.leaf "B"]].map Item.wrap) "out.txt"
         Engine.google_play
        = Except.error SaveError.unknownFormat) :=
  ⟨by decide, by decide,
   save_results_unknown_ending [Item.leaf "A"] [[Item.leaf "B"]] "out.txt"
     (by decide) (by decide)⟩

/-- C9: setup_params is a pure function producing a params record with
every engine-required field: for Apple App Store the query under term, the
explicit-content flag, the page size, the current page index, the country
and the doubled-locale language; for Google Play the query under q, the
country under gl and the language under hl. -/
theorem setup_params_required_fields (key query device country language :
    String) (e : Engine) (dis : Bool) (num sp : Int) :
    (setup_params key query e device country language dis num sp).term = query ∧
    (setup_params key query e device country language dis num sp).disallow_explicit = dis ∧
    (setup_params key query e device country language dis num sp).num = num ∧
    (setup_params key query e device country language dis num sp).page = sp ∧
    (setup_params key query e device country language dis num sp).country = country ∧
    (setup_params key query e device country language dis num sp).lang = language ++ "-" ++ language ∧
    (setup_params key query e device country language dis num sp).q = query ∧
    (setup_params key query e device country language dis num sp).gl = country ∧
    (setup_params key query e device country language dis num sp).hl = language :=
  ⟨rfl, rfl, rfl, rfl, rfl, rfl, rfl, rfl, rfl⟩

theorem runLoop_per_tuple (key fmt device : String) (disallow : Bool)
    (sp : Int) (mp : Nat)
    (api : String → Engine → String → String → Nat → SearchResponse) :
    ∀ (ts : List Tuple) (stamp : Nat),
    (runLoop key fmt device disallow sp mp api ts stamp).2 = false →
    List.Forall₂ (fun (t : Tuple) (a : Artifact) =>
        a.engine = t.2.1 ∧ a.query = t.1 ∧
        save_results (tupleFetch key device disallow sp mp api t).results
          (outputName t.2.1 t.1 a.stamp fmt) t.2.1 = Except.ok a.doc)
      ts (runLoop key fmt device disallow sp mp api ts stamp).1 := by
  intro ts
  induction ts with
  | nil =>
    intro stamp h
    simp [runLoop]
  | cons t rest ih =>
    intro stamp h
    simp only [runLoop] at h ⊢
    by_cases hc : (tupleFetch key device disallow sp mp api t).crashed = true
    · rw [if_pos hc] at h
      simp at h
    · rw [if_neg hc] at h ⊢
      cases hs : save_results (tupleFetch key device disallow sp mp api t).results
          (outputName t.2.1 t.1 stamp fmt) t.2.1 with
      | error err =>
        rw [hs] at h
        exact Bool.noConfusion h
      | ok doc =>
        rw [hs] at h
        exact List.Forall₂.cons ⟨rfl, rfl, hs⟩ (ih (stamp + 1) h)

/-- C1 amended: a run that finishes without an uncaught exception persists
exactly one artifact per (query, engine, country, language) tuple — so
countries times languages many artifacts per (query, engine) pair, not one —
each named for its tuple's engine and query and containing the document
save_results produced from that tuple's fetched ResultSet. -/
theorem run_one_artifact_per_tuple (key fmt device : String) (disallow : Bool)
    (sp : Int) (mp : Nat)
    (api : String → Engine → String → String → Nat → SearchResponse)
    (queries : List String) (engines : List Engine)
    (countries languages : List String)
    (h : (run key fmt api queries engines countries languages disallow sp mp
      device).2 = false) :
    (run key fmt api queries engines countries languages disallow sp mp
        device).1.length
      = (tuples queries engines countries languages).length ∧
    List.Forall₂ (fun (t : Tuple) (a : Artifact) =>
        a.engine = t.2.1 ∧ a.query = t.1 ∧
        save_results (tupleFetch key device disallow sp mp api t).results
          (outputName t.2.1 t.1 a.stamp fmt) t.2.1 = Except.ok a.doc)
      (tuples queries engines countries languages)
      (run key fmt api queries engines countries languages disallow sp mp
        device).1 := by
  have hf := runLoop_per_tuple key fmt device disallow sp mp api
    (tuples queries engines countries languages) 0 h
  exact ⟨(List.Forall₂.length_eq hf).symm, hf⟩

/-- Witness for C1 amended at a concrete single-tuple run: one query, engine
apple_app_store, one country, one language, a transport whose one response
has no pagination, so the run completes and writes exactly one artifact. -/
theorem run_one_artifact_per_tuple_witness :
    (run "k" "json" (fun _ _ _ _ _ => SearchResponse.mk [Item.leaf "A"] none)
        ["x"] [Engine.apple_app_store] ["de"] ["de"] false 0 1
        "mobile").1.length
      = (tuples ["x"] [Engine.apple_app_store] ["de"] ["de"]).length ∧
    List.Forall₂ (fun (t : Tuple) (a : Artifact) =>
        a.engine = t.2.1 ∧ a.query = t.1 ∧
        save_results (tupleFetch "k" "mobile" false 0 1
            (fun _ _ _ _ _ => SearchResponse.mk [Item.leaf "A"] none) t).results
          (outputName t.2.1 t.1 a.stamp "json") t.2.1 = Except.ok a.doc)
      (tuples ["x"] [Engine.apple_app_store] ["de"] ["de"])
      (run "k" "json" (fun _ _ _ _ _ => SearchResponse.mk [Item.leaf "A"] none)
        ["x"] [Engine.apple_app_store] ["de"] ["de"] false 0 1 "mobile").1 :=
  run_one_artifact_per_tuple "k" "json" "mobile" false 0 1
    (fun _ _ _ _ _ => SearchResponse.mk [Item.leaf "A"] none)
    ["x"] [Engine.apple_app_store] ["de"] ["de"] rfl

/-- Counterexample to C1 as stated: a run over one query, one engine, two
countries and one language persists two artifacts for the single
(query, engine) combination, not exactly one — the orchestrator saves once
per (query, engine, country, language) tuple. -/
theorem run_artifacts_cx :
    ((run "k" "json" (fun _ _ _ _ _ => SearchResponse.mk [Item.leaf "A"] none)
        ["x"] [Engine.apple_app_store] ["de", "us"] ["de"] false 0 1
        "mobile").1.filter (fun a =>
          a.query == "x" && decide (a.engine = Engine.apple_app_store))).length
      = 2 ∧
    ((run "k" "json" (fun _ _ _ _ _ => SearchResponse.mk [Item.leaf "A"] none)
        ["x"] [Engine.apple_app_store] ["de", "us"] ["de"] false 0 1
        "mobile").1.filter (fun a =>
          a.query == "x" && decide (a.engine = Engine.apple_app_store))).length
      ≠ 1 := by
  have h2 : ((run "k" "json"
      (fun _ _ _ _ _ => SearchResponse.mk [Item.leaf "A"] none)
      ["x"] [Engine.apple_app_store] ["de", "us"] ["de"] false 0 1
      "mobile").1.filter (fun a =>
        a.query == "x" && decide (a.engine = Engine.apple_app_store))).length
      = 2 := rfl
  exact ⟨h2, by rw [h2]; omega⟩

end AppInfoRetriever
